import Mathlib

/-!
Verification of the qro-change-detection tile server.

Shallow embedding of the tile-synthesis pipeline
(`src/app/api/tile/route.ts`, `api/tile.js`) and the PMTiles byte-range
proxy (`src/lib/pmtiles-serve.ts`).  JavaScript doubles are modelled as
exact rationals; the 32-bit `<<` operator and `Math.round`/`Math.floor`/
`Math.ceil` are modelled explicitly.
-/

namespace Qro

/-- `TILE_SIZE = 256` from both tile handlers. -/
def TILE_SIZE : ℤ := 256

/-- `ORIGIN_SHIFT = 20037508.342789244` (half the Web-Mercator circumference),
from `route.ts` line 23 / `tile.js` line 16, read as an exact decimal. -/
def ORIGIN_SHIFT : ℚ := 20037508342789244 / 1000000000

/-- JavaScript `ToInt32`: wrap an integer into `[-2^31, 2^31)`. -/
def toInt32 (n : ℤ) : ℤ := (n + 2 ^ 31) % 2 ^ 32 - 2 ^ 31

/-- JavaScript `1 << z`: the shift count is taken mod 32 and the result is a
signed 32-bit integer. -/
def jsShl1 (z : ℕ) : ℤ := toInt32 (2 ^ (z % 32))

/-- JavaScript `Math.round`: round half toward positive infinity. -/
def jsRound (q : ℚ) : ℤ := ⌊q + 1 / 2⌋

/-- Geographic bounding box in EPSG:3857 meters (spec `GeoBounds`). -/
structure GeoBounds where
  west : ℚ
  south : ℚ
  east : ℚ
  north : ℚ
deriving DecidableEq, Repr

/-- `tileBounds(z, x, y)` from `route.ts` lines 69-77 / `tile.js` lines 43-51:
`size = (2 * ORIGIN_SHIFT) / (1 << z)` and the four corners from it.
The `1 << z` is the 32-bit JavaScript shift. -/
def tileBounds (z x y : ℕ) : GeoBounds :=
  let size : ℚ := (2 * ORIGIN_SHIFT) / (jsShl1 z : ℚ)
  { west := -ORIGIN_SHIFT + x * size
    south := ORIGIN_SHIFT - (y + 1) * size
    east := -ORIGIN_SHIFT + (x + 1) * size
    north := ORIGIN_SHIFT - y * size }

/-- Modelled from the spec: the spec formula for tile bounds, with
`edge = 2 * halfCircumference / 2 ^ zoom` taken as exact mathematical
exponentiation (spec section 4.1).  Used to compare against the code's
`tileBounds`, whose `1 << z` is a 32-bit shift. -/
def specTileBounds (z x y : ℕ) : GeoBounds :=
  let edge : ℚ := 2 * ORIGIN_SHIFT / 2 ^ z
  { west := -ORIGIN_SHIFT + x * edge
    south := ORIGIN_SHIFT - (y + 1) * edge
    east := -ORIGIN_SHIFT + (x + 1) * edge
    north := ORIGIN_SHIFT - y * edge }

theorem jsShl1_eq_pow (z : ℕ) (hz : z ≤ 30) : jsShl1 z = 2 ^ z := by
  unfold jsShl1 toInt32
  rw [Nat.mod_eq_of_lt (by omega)]
  have h1 : (0 : ℤ) ≤ 2 ^ z + 2 ^ 31 := by positivity
  have h2 : (2 : ℤ) ^ z + 2 ^ 31 < 2 ^ 32 := by
    have : (2 : ℤ) ^ z ≤ 2 ^ 30 := by
      exact pow_le_pow_right₀ (by norm_num) hz
    norm_num at this ⊢
    omega
  rw [Int.emod_eq_of_lt h1 h2]
  ring

lemma jsShl1_31 : jsShl1 31 = -(2 ^ 31) := by decide

lemma jsShl1_32 : jsShl1 32 = 1 := by decide

lemma tileBounds_eq_spec (z x y : ℕ) (hz : z ≤ 30) :
    tileBounds z x y = specTileBounds z x y := by
  simp only [tileBounds, specTileBounds, jsShl1_eq_pow z hz]
  push_cast
  rfl

/-- C3 (amended): for zoom ≤ 30 and valid x, y, `tileBounds` yields
west < east and south < north from the spec formula with
edge = 2·ORIGIN_SHIFT / 2^z, and adjacent tiles share the boundary
coordinate: tile (z,x,y)'s east is tile (z,x+1,y)'s west and its south is
tile (z,x,y+1)'s north. -/
theorem c3_tileBounds_geometry (z x y : ℕ) (hz : z ≤ 30)
    (hx : x < 2 ^ z) (hy : y < 2 ^ z) :
    (tileBounds z x y).west < (tileBounds z x y).east ∧
    (tileBounds z x y).south < (tileBounds z x y).north ∧
    (tileBounds z x y).west = -ORIGIN_SHIFT + (x : ℚ) * (2 * ORIGIN_SHIFT / 2 ^ z) ∧
    (tileBounds z x y).north = ORIGIN_SHIFT - (y : ℚ) * (2 * ORIGIN_SHIFT / 2 ^ z) ∧
    (tileBounds z x y).east = (tileBounds z x y).west + 2 * ORIGIN_SHIFT / 2 ^ z ∧
    (tileBounds z x y).south = (tileBounds z x y).north - 2 * ORIGIN_SHIFT / 2 ^ z ∧
    (tileBounds z (x + 1) y).west = (tileBounds z x y).east ∧
    (tileBounds z x (y + 1)).north = (tileBounds z x y).south := by
  have hO : (0 : ℚ) < ORIGIN_SHIFT := by norm_num [ORIGIN_SHIFT]
  have hedge : (0 : ℚ) < 2 * ORIGIN_SHIFT / 2 ^ z := by positivity
  rw [tileBounds_eq_spec z x y hz, tileBounds_eq_spec z (x + 1) y hz,
    tileBounds_eq_spec z x (y + 1) hz]
  simp only [specTileBounds]
  push_cast
  refine ⟨by nlinarith, by nlinarith, by ring, by ring, by ring, by ring,
    by ring, by ring⟩

/-- C3 witness: the amended statement instantiated at zoom 1, tile (0,0). -/
theorem c3_tileBounds_geometry_witness :
    (tileBounds 1 0 0).west < (tileBounds 1 0 0).east ∧
    (tileBounds 1 0 0).south < (tileBounds 1 0 0).north ∧
    (tileBounds 1 0 0).west = -ORIGIN_SHIFT + (0 : ℚ) * (2 * ORIGIN_SHIFT / 2 ^ 1) ∧
    (tileBounds 1 0 0).north = ORIGIN_SHIFT - (0 : ℚ) * (2 * ORIGIN_SHIFT / 2 ^ 1) ∧
    (tileBounds 1 0 0).east = (tileBounds 1 0 0).west + 2 * ORIGIN_SHIFT / 2 ^ 1 ∧
    (tileBounds 1 0 0).south = (tileBounds 1 0 0).north - 2 * ORIGIN_SHIFT / 2 ^ 1 ∧
    (tileBounds 1 (0 + 1) 0).west = (tileBounds 1 0 0).east ∧
    (tileBounds 1 0 (0 + 1)).north = (tileBounds 1 0 0).south :=
  c3_tileBounds_geometry 1 0 0 (by norm_num) (by norm_num) (by norm_num)

/-- C3 counterexample: at zoom 31 (with x = y = 0, which satisfies the
claim's 0 ≤ x,y < 2^z constraint) the 32-bit shift makes the tile edge
negative, so west < east fails. -/
theorem c3_counterexample :
    (0 : ℕ) < 2 ^ 31 ∧ ¬ (tileBounds 31 0 0).west < (tileBounds 31 0 0).east := by
  refine ⟨by norm_num, ?_⟩
  simp only [tileBounds, jsShl1_31]
  norm_num [ORIGIN_SHIFT]

/-- C10: `tileBounds` agrees with the spec formula 2·halfCircumference/2^zoom
exactly for zoom ≤ 30; the JavaScript shift wraps at 31 (`1 << 31` is
negative) and at 32 (`1 << 32` is 1), and at zoom 31 the returned bounds
no longer satisfy the spec formula. -/
theorem c10_shift_wrap :
    (∀ z x y : ℕ, z ≤ 30 → tileBounds z x y = specTileBounds z x y) ∧
    jsShl1 31 = -(2 ^ 31) ∧ jsShl1 32 = 1 ∧
    tileBounds 31 0 0 ≠ specTileBounds 31 0 0 := by
  refine ⟨fun z x y hz => tileBounds_eq_spec z x y hz, jsShl1_31, jsShl1_32, ?_⟩
  intro h
  have he := congrArg GeoBounds.east h
  simp only [tileBounds, specTileBounds, jsShl1_31] at he
  norm_num [ORIGIN_SHIFT] at he

/-- C10 witness: the zoom ≤ 30 agreement instantiated at (3, 1, 2). -/
theorem c10_shift_wrap_witness : tileBounds 3 1 2 = specTileBounds 3 1 2 :=
  c10_shift_wrap.1 3 1 2 (by norm_num)

/-! ## Pixel pipeline (route.ts GET, tile.js handler) -/

/-- Fractional pixel coordinates of a geographic box inside a raster level:
`fL = (tW - oX)/rX`, `fT = (tN - oY)/rY`, `fR = (tE - oX)/rX`,
`fB = (tS - oY)/rY` (route.ts lines 176-179, tile.js lines 161-164). -/
structure FracBox where
  fL : ℚ
  fT : ℚ
  fR : ℚ
  fB : ℚ
deriving DecidableEq, Repr

def fracBox (oX oY rX rY tW tS tE tN : ℚ) : FracBox :=
  { fL := (tW - oX) / rX
    fT := (tN - oY) / rY
    fR := (tE - oX) / rX
    fB := (tS - oY) / rY }

/-- Integer pixel window (spec `PixelWindow`). -/
structure PixelWindow where
  left : ℤ
  top : ℤ
  right : ℤ
  bottom : ℤ
deriving DecidableEq, Repr

/-- Clamp fractional pixel bounds to `[0,w] × [0,h]` with floor on the
left/top edge and ceil on the right/bottom edge
(route.ts lines 219-222, tile.js lines 168-171). -/
def clampWindow (w h : ℤ) (pL pT pR pB : ℚ) : PixelWindow :=
  { left := max 0 ⌊pL⌋
    top := max 0 ⌊pT⌋
    right := min w ⌈pR⌉
    bottom := min h ⌈pB⌉ }

/-- The route.ts line 184 early-out: the tile lies entirely outside the
full-resolution image (`fR <= 0 || fB <= 0 || fL >= mainW || fT >= mainH`). -/
def routeOutside (f : FracBox) (mainW mainH : ℤ) : Prop :=
  f.fR ≤ 0 ∨ f.fB ≤ 0 ∨ (mainW : ℚ) ≤ f.fL ∨ (mainH : ℚ) ≤ f.fT

instance (f : FracBox) (mainW mainH : ℤ) : Decidable (routeOutside f mainW mainH) := by
  unfold routeOutside; infer_instance

/-- Overview selection by pixel-dimension ratio (route.ts lines 194-213):
starting from the main image, each readable overview whose implied tile
pixel count `|fW| * (ovrW / mainW)` is at least `TILE_SIZE` replaces the
current best; unreadable overviews (`none`) are skipped by the
`catch` clause. -/
def ovrStep (mainW : ℤ) (fW : ℚ) (best : ℤ × ℤ) (o : Option (ℤ × ℤ)) : ℤ × ℤ :=
  match o with
  | none => best
  | some (ow, oh) =>
    if (TILE_SIZE : ℚ) ≤ |fW| * ((ow : ℚ) / (mainW : ℚ)) then (ow, oh) else best

def selectOverview (mainW mainH : ℤ) (ovrs : List (Option (ℤ × ℤ))) (fW : ℚ) :
    ℤ × ℤ :=
  ovrs.foldl (ovrStep mainW fW) (mainW, mainH)

/-- Offset and size of the resampled region inside the 256×256 canvas. -/
structure Placement where
  outX : ℤ
  outY : ℤ
  outW : ℤ
  outH : ℤ
deriving DecidableEq, Repr

/-- Output placement from route.ts lines 270-273: rounded proportional
offsets clamped below by 0, and sizes clamped to at least 1 and then to the
remaining canvas. -/
def routePlacement (fL fT fW fH sX sY : ℚ) (cL cT readW readH : ℤ) : Placement :=
  let outX := max 0 (jsRound ((TILE_SIZE : ℚ) * ((cL : ℚ) / sX - fL) / fW))
  let outY := max 0 (jsRound ((TILE_SIZE : ℚ) * ((cT : ℚ) / sY - fT) / fH))
  { outX := outX
    outY := outY
    outW := min (TILE_SIZE - outX)
      (max 1 (jsRound ((TILE_SIZE : ℚ) * (readW : ℚ) / (fW * sX))))
    outH := min (TILE_SIZE - outY)
      (max 1 (jsRound ((TILE_SIZE : ℚ) * (readH : ℚ) / (fH * sY)))) }

/-- Output placement from tile.js lines 180-183: same proportional math,
sizes clamped to at least 1 but never clamped to the remaining canvas. -/
def tileJsPlacement (fL fT fW fH : ℚ) (cL cT cR cB : ℤ) : Placement :=
  { outX := max 0 (jsRound ((TILE_SIZE : ℚ) * ((cL : ℚ) - fL) / fW))
    outY := max 0 (jsRound ((TILE_SIZE : ℚ) * ((cT : ℚ) - fT) / fH))
    outW := max 1 (jsRound ((TILE_SIZE : ℚ) * ((cR : ℚ) - (cL : ℚ)) / fW))
    outH := max 1 (jsRound ((TILE_SIZE : ℚ) * ((cB : ℚ) - (cT : ℚ)) / fH)) }

/-- Result of the tile pipeline: early-out outside the raster, empty clamped
window, or a pixel read plus canvas placement. -/
inductive PipeResult where
  | outside : PipeResult
  | emptyWindow : PipeResult
  | render (win : PixelWindow) (p : Placement) : PipeResult
deriving DecidableEq, Repr

/-- Whether a `PipeResult` issues a remote pixel read (`readRasters`):
only the render branch does. -/
def issuesRead : PipeResult → Bool
  | .render _ _ => true
  | _ => false

def routeBest (mainW mainH : ℤ) (ovrs : List (Option (ℤ × ℤ))) (f : FracBox) :
    ℤ × ℤ :=
  selectOverview mainW mainH ovrs (f.fR - f.fL)

def routeWindow (mainW mainH : ℤ) (best : ℤ × ℤ) (f : FracBox) : PixelWindow :=
  clampWindow best.1 best.2 (f.fL * ((best.1 : ℚ) / (mainW : ℚ)))
    (f.fT * ((best.2 : ℚ) / (mainH : ℚ)))
    (f.fR * ((best.1 : ℚ) / (mainW : ℚ)))
    (f.fB * ((best.2 : ℚ) / (mainH : ℚ)))

/-- The normal-mode pixel pipeline of route.ts (steps 4-10 of GET):
fractional coordinates, outside check, overview selection, clamped window,
empty-window check, placement. -/
def routePipeline (oX oY rX rY : ℚ) (mainW mainH : ℤ)
    (ovrs : List (Option (ℤ × ℤ))) (tW tS tE tN : ℚ) : PipeResult :=
  let f := fracBox oX oY rX rY tW tS tE tN
  if routeOutside f mainW mainH then .outside
  else
    let best := routeBest mainW mainH ovrs f
    let win := routeWindow mainW mainH best f
    if win.right ≤ win.left ∨ win.bottom ≤ win.top then .emptyWindow
    else
      .render win
        (routePlacement f.fL f.fT (f.fR - f.fL) (f.fB - f.fT)
          ((best.1 : ℚ) / (mainW : ℚ)) ((best.2 : ℚ) / (mainH : ℚ))
          win.left win.top (win.right - win.left) (win.bottom - win.top))

/-- The tile.js pixel pipeline (steps 5-7 of the handler): fractional
coordinates at the selected level, clamped window, empty-window check,
placement.  tile.js has no separate outside check. -/
def tileJsPipeline (oX oY rX rY : ℚ) (w h : ℤ) (tW tS tE tN : ℚ) : PipeResult :=
  let f := fracBox oX oY rX rY tW tS tE tN
  let win := clampWindow w h f.fL f.fT f.fR f.fB
  if win.right ≤ win.left ∨ win.bottom ≤ win.top then .emptyWindow
  else
    .render win
      (tileJsPlacement f.fL f.fT (f.fR - f.fL) (f.fB - f.fT)
        win.left win.top win.right win.bottom)

/-! ## The pre-baked EMPTY_PNG and its dimensions -/

/-- Value of a base64 alphabet character; padding and other characters
decode to `none`. -/
def b64Val (c : Char) : Option ℕ :=
  if 'A' ≤ c ∧ c ≤ 'Z' then some (c.toNat - 65)
  else if 'a' ≤ c ∧ c ≤ 'z' then some (c.toNat - 97 + 26)
  else if '0' ≤ c ∧ c ≤ '9' then some (c.toNat - 48 + 52)
  else if c = '+' then some 62
  else if c = '/' then some 63
  else none

/-- Reassemble bytes from 6-bit base64 values (RFC 4648). -/
def b64Bytes : List ℕ → List ℕ
  | a :: b :: c :: d :: rest =>
    (a * 4 + b / 16) :: (b % 16 * 16 + c / 4) :: (c % 4 * 64 + d) :: b64Bytes rest
  | [a, b] => [a * 4 + b / 16]
  | [a, b, c] => [a * 4 + b / 16, b % 16 * 16 + c / 4]
  | _ => []

/-- `Buffer.from(s, 'base64')`. -/
def base64Decode (s : String) : List ℕ :=
  b64Bytes (s.data.filterMap b64Val)

/-- The base64 literal of `EMPTY_PNG` (route.ts lines 26-31,
tile.js lines 19-22). -/
def emptyPngBase64 : String :=
  "iVBORw0KGgoAAAANSUhEUgAAAAEAAAABCAYAAAAfFcSJAAAADUlEQVQI12P4z8BQDwAEgAF/QualIQAAAABJRU5ErkJggg=="

/-- The decoded bytes of `EMPTY_PNG`. -/
def emptyPngBytes : List ℕ := base64Decode emptyPngBase64

/-- Big-endian 32-bit value at offset `i` of a byte list. -/
def be32 (bs : List ℕ) (i : ℕ) : ℕ :=
  bs.getD i 0 * 2 ^ 24 + bs.getD (i + 1) 0 * 2 ^ 16 +
    bs.getD (i + 2) 0 * 2 ^ 8 + bs.getD (i + 3) 0

/-- Width and height of a PNG file, read from its IHDR chunk; `none`
when the PNG signature is absent. -/
def pngSize (bs : List ℕ) : Option (ℕ × ℕ) :=
  if bs.take 8 = [137, 80, 78, 71, 13, 10, 26, 10] then
    some (be32 bs 16, be32 bs 20)
  else none

/-! ## Tile endpoint response model (route.ts GET) -/

inductive TileBody where
  | emptyPng : TileBody
  | png : TileBody
  | json : TileBody
deriving DecidableEq, Repr

structure TileResp where
  status : ℤ
  contentType : String
  cacheControl : String
  body : TileBody
deriving DecidableEq, Repr

/-- The cacheable success headers of route.ts (lines 186, 226, 298). -/
def TILE_CACHE_OK : String := "public, s-maxage=86400, max-age=3600"

/-- Response produced for each pipeline outcome in route.ts: both
short-circuit branches return `EMPTY_PNG` with status 200 and the
cacheable headers; the render branch returns the composed PNG. -/
def pipeResponse : PipeResult → TileResp
  | .outside => ⟨200, "image/png", TILE_CACHE_OK, .emptyPng⟩
  | .emptyWindow => ⟨200, "image/png", TILE_CACHE_OK, .emptyPng⟩
  | .render _ _ => ⟨200, "image/png", TILE_CACHE_OK, .png⟩

/-- The allow-listed COG layers (route.ts lines 34-37). -/
def COG_FILES : List (String × String) :=
  [("2017", "raster/satellite_2017_cog.tif"),
   ("2024", "raster/satellite_2024_cog.tif")]

/-- A tile request: the diagnostic flags and the parsed query parameters
(`none` models a missing parameter or a `parseInt` NaN). -/
structure TileReq where
  test : Bool
  debug : Bool
  verbose : Bool
  year : Option String
  z : Option ℤ
  x : Option ℤ
  y : Option ℤ
deriving DecidableEq, Repr

/-- route.ts line 143: `!COG_FILES[year] || [z, x, y].some(isNaN)` negated. -/
def validParams (req : TileReq) : Bool :=
  (match req.year with
   | some y => (COG_FILES.lookup y).isSome
   | none => false) &&
  req.z.isSome && req.x.isSome && req.y.isSome

/-- The route.ts GET handler's control flow: test mode (red tile, or JSON
if sharp fails), debug mode (JSON), parameter validation (400 JSON), then
the try/catch around the pipeline — on an internal failure, verbose mode
returns a 500 JSON diagnostic and normal mode returns the transparent
`EMPTY_PNG` with `no-cache`. -/
def tileGET (req : TileReq) (sharpOk : Bool) (pipeline : Except Unit TileResp) :
    TileResp :=
  if req.test then
    if sharpOk then ⟨200, "image/png", "", .png⟩
    else ⟨200, "application/json", "", .json⟩
  else if req.debug then ⟨200, "application/json", "", .json⟩
  else if !validParams req then ⟨400, "application/json", "", .json⟩
  else
    match pipeline with
    | .ok r => r
    | .error _ =>
      if req.verbose then ⟨500, "application/json", "", .json⟩
      else ⟨200, "image/png", "no-cache", .emptyPng⟩

lemma ceil_as_floor (a : ℚ) : ⌈a⌉ = -⌊-a⌋ := by rw [Int.floor_neg]; ring

/-- C2 (amended): when the clamped pixel window is empty the route.ts
handler short-circuits without issuing a pixel read and returns a success
response (status 200, image/png, cacheable) whose body is the pre-baked
fully transparent `EMPTY_PNG` — whose IHDR dimensions are 1×1, not
256×256; this path is not an error. -/
theorem c2_empty_window (oX oY rX rY : ℚ) (mainW mainH : ℤ)
    (ovrs : List (Option (ℤ × ℤ))) (tW tS tE tN : ℚ)
    (hin : ¬ routeOutside (fracBox oX oY rX rY tW tS tE tN) mainW mainH)
    (hemp :
      (routeWindow mainW mainH
          (routeBest mainW mainH ovrs (fracBox oX oY rX rY tW tS tE tN))
          (fracBox oX oY rX rY tW tS tE tN)).right ≤
        (routeWindow mainW mainH
          (routeBest mainW mainH ovrs (fracBox oX oY rX rY tW tS tE tN))
          (fracBox oX oY rX rY tW tS tE tN)).left ∨
      (routeWindow mainW mainH
          (routeBest mainW mainH ovrs (fracBox oX oY rX rY tW tS tE tN))
          (fracBox oX oY rX rY tW tS tE tN)).bottom ≤
        (routeWindow mainW mainH
          (routeBest mainW mainH ovrs (fracBox oX oY rX rY tW tS tE tN))
          (fracBox oX oY rX rY tW tS tE tN)).top) :
    routePipeline oX oY rX rY mainW mainH ovrs tW tS tE tN = .emptyWindow ∧
    pipeResponse (routePipeline oX oY rX rY mainW mainH ovrs tW tS tE tN) =
      ⟨200, "image/png", TILE_CACHE_OK, .emptyPng⟩ ∧
    issuesRead (routePipeline oX oY rX rY mainW mainH ovrs tW tS tE tN) = false ∧
    pngSize emptyPngBytes = some (1, 1) := by
  have h1 : routePipeline oX oY rX rY mainW mainH ovrs tW tS tE tN = .emptyWindow := by
    unfold routePipeline
    rw [if_neg hin, if_pos hemp]
  exact ⟨h1, by rw [h1]; rfl, by rw [h1]; rfl, by decide⟩

/-- C2 witness: the amended statement at a concrete raster whose extent
misses the tile, producing an empty clamped window. -/
theorem c2_empty_window_witness :
    routePipeline 0 10 (-1) (-1) 10 10 [] (-7/2) 5 (-1/2) (19/2) = .emptyWindow ∧
    pipeResponse (routePipeline 0 10 (-1) (-1) 10 10 [] (-7/2) 5 (-1/2) (19/2)) =
      ⟨200, "image/png", TILE_CACHE_OK, .emptyPng⟩ ∧
    issuesRead (routePipeline 0 10 (-1) (-1) 10 10 [] (-7/2) 5 (-1/2) (19/2)) = false ∧
    pngSize emptyPngBytes = some (1, 1) :=
  c2_empty_window 0 10 (-1) (-1) 10 10 [] (-7/2) 5 (-1/2) (19/2)
    (by norm_num [routeOutside, fracBox])
    (by norm_num [routeWindow, routeBest, selectOverview, ovrStep, clampWindow,
      fracBox, ceil_as_floor])

/-- C2 counterexample: on an empty clamped window the handler's body is the
pre-baked `EMPTY_PNG`, a 1×1 PNG — not an image of the fixed tile size
256×256 as the claim states. -/
theorem c2_counterexample :
    routePipeline 0 10 (-1) (-1) 10 10 [] (-7/2) 5 (-1/2) (19/2) = .emptyWindow ∧
    pipeResponse PipeResult.emptyWindow =
      ⟨200, "image/png", TILE_CACHE_OK, .emptyPng⟩ ∧
    pngSize emptyPngBytes = some (1, 1) ∧ ((1 : ℕ), (1 : ℕ)) ≠ (256, 256) := by
  refine ⟨?_, rfl, by decide, by decide⟩
  unfold routePipeline
  rw [if_neg (by norm_num [routeOutside, fracBox]),
    if_pos (by norm_num [routeWindow, routeBest, selectOverview, ovrStep, clampWindow,
      fracBox, ceil_as_floor])]

/-- C7 (amended): route.ts placements always satisfy
outX + outW ≤ 256 and outY + outH ≤ 256, and their dimensions are ≥ 1
whenever the offset has not consumed the whole canvas (outW = 0 can occur
exactly when outX = 256); tile.js placements always have outW, outH ≥ 1 and
nonnegative offsets, but are not clamped to the canvas. -/
theorem c7_placement_invariants :
    (∀ fL fT fW fH sX sY : ℚ, ∀ cL cT readW readH : ℤ,
      (routePlacement fL fT fW fH sX sY cL cT readW readH).outX +
          (routePlacement fL fT fW fH sX sY cL cT readW readH).outW ≤ TILE_SIZE ∧
      (routePlacement fL fT fW fH sX sY cL cT readW readH).outY +
          (routePlacement fL fT fW fH sX sY cL cT readW readH).outH ≤ TILE_SIZE ∧
      ((routePlacement fL fT fW fH sX sY cL cT readW readH).outX < TILE_SIZE →
        1 ≤ (routePlacement fL fT fW fH sX sY cL cT readW readH).outW) ∧
      ((routePlacement fL fT fW fH sX sY cL cT readW readH).outY < TILE_SIZE →
        1 ≤ (routePlacement fL fT fW fH sX sY cL cT readW readH).outH)) ∧
    (∀ fL fT fW fH : ℚ, ∀ cL cT cR cB : ℤ,
      1 ≤ (tileJsPlacement fL fT fW fH cL cT cR cB).outW ∧
      1 ≤ (tileJsPlacement fL fT fW fH cL cT cR cB).outH ∧
      0 ≤ (tileJsPlacement fL fT fW fH cL cT cR cB).outX ∧
      0 ≤ (tileJsPlacement fL fT fW fH cL cT cR cB).outY) := by
  constructor
  · intro fL fT fW fH sX sY cL cT readW readH
    dsimp only [routePlacement, TILE_SIZE]
    refine ⟨?_, ?_, ?_, ?_⟩ <;> omega
  · intro fL fT fW fH cL cT cR cB
    dsimp only [tileJsPlacement]
    refine ⟨?_, ?_, ?_, ?_⟩ <;> omega

/-- C7 witness: the amended invariants instantiated at concrete placement
inputs. -/
theorem c7_placement_invariants_witness :
    (routePlacement 0 0 1 1 1 1 0 0 1 1).outX +
        (routePlacement 0 0 1 1 1 1 0 0 1 1).outW ≤ TILE_SIZE ∧
    1 ≤ (routePlacement 0 0 1 1 1 1 0 0 1 1).outW ∧
    1 ≤ (tileJsPlacement 0 0 1 1 0 0 1 1).outW := by
  obtain ⟨h1, h2, h3, h4⟩ := c7_placement_invariants.1 0 0 1 1 1 1 0 0 1 1
  refine ⟨h1, h3 ?_, (c7_placement_invariants.2 0 0 1 1 0 0 1 1).1⟩
  norm_num [routePlacement, jsRound, TILE_SIZE]

/-- C7 counterexample: a tile.js placement produced by the pipeline with
outX + outW = 268 > 256, and a route.ts placement produced by the pipeline
with outW = 0 < 1. -/
theorem c7_counterexample :
    tileJsPipeline 0 0 1 (-1) 100 100 0 (-21/2) (21/2) 0 =
      .render ⟨0, 0, 11, 11⟩ ⟨0, 0, 268, 268⟩ ∧
    ¬ ((0 : ℤ) + 268 ≤ TILE_SIZE) ∧
    routePipeline 0 0 1 (-1) 1 1 [] (-1000) (-1) 1 1000 =
      .render ⟨0, 0, 1, 1⟩ ⟨256, 256, 0, 0⟩ ∧
    ¬ ((1 : ℤ) ≤ (0 : ℤ)) := by
  refine ⟨?_, by norm_num [TILE_SIZE], ?_, by norm_num⟩
  · unfold tileJsPipeline
    rw [if_neg (by norm_num [clampWindow, fracBox, ceil_as_floor])]
    norm_num [clampWindow, fracBox, tileJsPlacement, jsRound, TILE_SIZE,
      ceil_as_floor, PixelWindow.mk.injEq, Placement.mk.injEq]
  · unfold routePipeline
    rw [if_neg (by norm_num [routeOutside, fracBox]),
      if_neg (by norm_num [routeWindow, routeBest, selectOverview, ovrStep, clampWindow,
        fracBox, ceil_as_floor])]
    norm_num [routeWindow, routeBest, selectOverview, ovrStep, clampWindow, fracBox,
      routePlacement, jsRound, TILE_SIZE, ceil_as_floor,
      PipeResult.render.injEq, PixelWindow.mk.injEq, Placement.mk.injEq]

/-- C9 (amended): with the diagnostic flags test/debug/verbose all unset,
a valid-parameter request whose pipeline fails internally gets the
pre-baked transparent PNG with image/png and no-cache, never an error
status; the invalid/missing-parameter path returns 400 JSON.  With
verbose=1 an internal failure instead returns a 500 JSON diagnostic. -/
theorem c9_failure_shape :
    (∀ req : TileReq, ∀ sharpOk : Bool,
      req.test = false → req.debug = false → req.verbose = false →
      validParams req = true →
      tileGET req sharpOk (.error ()) = ⟨200, "image/png", "no-cache", .emptyPng⟩) ∧
    (∀ req : TileReq, ∀ sharpOk : Bool, ∀ p : Except Unit TileResp,
      req.test = false → req.debug = false → validParams req = false →
      tileGET req sharpOk p = ⟨400, "application/json", "", .json⟩) := by
  constructor
  · intro req sharpOk ht hd hv hvp
    simp [tileGET, ht, hd, hv, hvp]
  · intro req sharpOk p ht hd hvp
    simp [tileGET, ht, hd, hvp]

/-- C9 witness: the amended failure shape at a concrete valid request. -/
theorem c9_failure_shape_witness :
    tileGET ⟨false, false, false, some "2017", some 1, some 2, some 3⟩ true
      (.error ()) = ⟨200, "image/png", "no-cache", .emptyPng⟩ :=
  c9_failure_shape.1 ⟨false, false, false, some "2017", some 1, some 2, some 3⟩
    true rfl rfl rfl (by decide)

/-- C9 counterexample: a valid-parameter request with verbose=1 whose
pipeline fails returns a 500 JSON body, not the transparent PNG. -/
theorem c9_counterexample :
    validParams ⟨false, false, true, some "2017", some 0, some 0, some 0⟩ = true ∧
    tileGET ⟨false, false, true, some "2017", some 0, some 0, some 0⟩ true
      (.error ()) = ⟨500, "application/json", "", .json⟩ ∧
    (500 : ℤ) ≠ 200 ∧ TileBody.json ≠ TileBody.emptyPng := by
  refine ⟨by decide, by decide, by decide, by decide⟩

/-- C4: the pixel window is the floor/ceil clamp of the fractional
coordinates `(geo - origin)/res`, and it covers every fractional pixel
coordinate that lies both in the requested region and inside the level
bounds. -/
theorem c4_window_covers (oX oY rX rY : ℚ) (w h : ℤ) (tW tS tE tN p q : ℚ)
    (hp1 : (fracBox oX oY rX rY tW tS tE tN).fL ≤ p)
    (hp2 : p ≤ (fracBox oX oY rX rY tW tS tE tN).fR)
    (hp3 : 0 ≤ p) (hp4 : p ≤ (w : ℚ))
    (hq1 : (fracBox oX oY rX rY tW tS tE tN).fT ≤ q)
    (hq2 : q ≤ (fracBox oX oY rX rY tW tS tE tN).fB)
    (hq3 : 0 ≤ q) (hq4 : q ≤ (h : ℚ)) :
    clampWindow w h (fracBox oX oY rX rY tW tS tE tN).fL
        (fracBox oX oY rX rY tW tS tE tN).fT
        (fracBox oX oY rX rY tW tS tE tN).fR
        (fracBox oX oY rX rY tW tS tE tN).fB =
      ⟨max 0 ⌊(tW - oX) / rX⌋, max 0 ⌊(tN - oY) / rY⌋,
       min w ⌈(tE - oX) / rX⌉, min h ⌈(tS - oY) / rY⌉⟩ ∧
    (((clampWindow w h (fracBox oX oY rX rY tW tS tE tN).fL
        (fracBox oX oY rX rY tW tS tE tN).fT
        (fracBox oX oY rX rY tW tS tE tN).fR
        (fracBox oX oY rX rY tW tS tE tN).fB).left : ℚ) ≤ p ∧
      p ≤ ((clampWindow w h (fracBox oX oY rX rY tW tS tE tN).fL
        (fracBox oX oY rX rY tW tS tE tN).fT
        (fracBox oX oY rX rY tW tS tE tN).fR
        (fracBox oX oY rX rY tW tS tE tN).fB).right : ℚ)) ∧
    (((clampWindow w h (fracBox oX oY rX rY tW tS tE tN).fL
        (fracBox oX oY rX rY tW tS tE tN).fT
        (fracBox oX oY rX rY tW tS tE tN).fR
        (fracBox oX oY rX rY tW tS tE tN).fB).top : ℚ) ≤ q ∧
      q ≤ ((clampWindow w h (fracBox oX oY rX rY tW tS tE tN).fL
        (fracBox oX oY rX rY tW tS tE tN).fT
        (fracBox oX oY rX rY tW tS tE tN).fR
        (fracBox oX oY rX rY tW tS tE tN).fB).bottom : ℚ)) := by
  refine ⟨rfl, ⟨?_, ?_⟩, ⟨?_, ?_⟩⟩ <;>
    simp only [clampWindow, fracBox] at *
  · push_cast
    exact max_le hp3 (le_trans (Int.floor_le _) hp1)
  · push_cast
    exact le_min hp4 (le_trans hp2 (Int.le_ceil _))
  · push_cast
    exact max_le hq3 (le_trans (Int.floor_le _) hq1)
  · push_cast
    exact le_min hq4 (le_trans hq2 (Int.le_ceil _))

/-- C4 witness: coverage at a concrete level, bounds, and in-bounds
fractional pixel coordinate. -/
theorem c4_window_covers_witness :
    clampWindow 10 10 (fracBox 0 0 1 (-1) (1/2) (-5/2) (5/2) (-1/2)).fL
        (fracBox 0 0 1 (-1) (1/2) (-5/2) (5/2) (-1/2)).fT
        (fracBox 0 0 1 (-1) (1/2) (-5/2) (5/2) (-1/2)).fR
        (fracBox 0 0 1 (-1) (1/2) (-5/2) (5/2) (-1/2)).fB =
      ⟨max 0 ⌊((1:ℚ)/2 - 0) / 1⌋, max 0 ⌊((-1:ℚ)/2 - 0) / (-1)⌋,
       min 10 ⌈((5:ℚ)/2 - 0) / 1⌉, min 10 ⌈((-5:ℚ)/2 - 0) / (-1)⌉⟩ ∧
    (((clampWindow 10 10 (fracBox 0 0 1 (-1) (1/2) (-5/2) (5/2) (-1/2)).fL
        (fracBox 0 0 1 (-1) (1/2) (-5/2) (5/2) (-1/2)).fT
        (fracBox 0 0 1 (-1) (1/2) (-5/2) (5/2) (-1/2)).fR
        (fracBox 0 0 1 (-1) (1/2) (-5/2) (5/2) (-1/2)).fB).left : ℚ) ≤ 1 ∧
      (1 : ℚ) ≤ ((clampWindow 10 10 (fracBox 0 0 1 (-1) (1/2) (-5/2) (5/2) (-1/2)).fL
        (fracBox 0 0 1 (-1) (1/2) (-5/2) (5/2) (-1/2)).fT
        (fracBox 0 0 1 (-1) (1/2) (-5/2) (5/2) (-1/2)).fR
        (fracBox 0 0 1 (-1) (1/2) (-5/2) (5/2) (-1/2)).fB).right : ℚ)) ∧
    (((clampWindow 10 10 (fracBox 0 0 1 (-1) (1/2) (-5/2) (5/2) (-1/2)).fL
        (fracBox 0 0 1 (-1) (1/2) (-5/2) (5/2) (-1/2)).fT
        (fracBox 0 0 1 (-1) (1/2) (-5/2) (5/2) (-1/2)).fR
        (fracBox 0 0 1 (-1) (1/2) (-5/2) (5/2) (-1/2)).fB).top : ℚ) ≤ 1 ∧
      (1 : ℚ) ≤ ((clampWindow 10 10 (fracBox 0 0 1 (-1) (1/2) (-5/2) (5/2) (-1/2)).fL
        (fracBox 0 0 1 (-1) (1/2) (-5/2) (5/2) (-1/2)).fT
        (fracBox 0 0 1 (-1) (1/2) (-5/2) (5/2) (-1/2)).fR
        (fracBox 0 0 1 (-1) (1/2) (-5/2) (5/2) (-1/2)).fB).bottom : ℚ)) :=
  c4_window_covers 0 0 1 (-1) 10 10 (1/2) (-5/2) (5/2) (-1/2) 1 1
    (by norm_num [fracBox]) (by norm_num [fracBox]) (by norm_num)
    (by norm_num) (by norm_num [fracBox]) (by norm_num [fracBox])
    (by norm_num) (by norm_num)

/-! ## Resolution selection -/

/-- Direct-resolution overview selection from tile.js lines 141-153:
starting from level 0's resolution, each candidate level replaces the
current one only when `candRes <= neededRes * 1.5 && candRes > imgRes`. -/
def selectDirectRes (res0 : ℚ) (rest : List ℚ) (needed : ℚ) : ℚ :=
  rest.foldl
    (fun cur cand => if cand ≤ needed * (3/2) ∧ cur < cand then cand else cur)
    res0

lemma selectDirectRes_spec (needed : ℚ) (rest : List ℚ) : ∀ cur : ℚ,
    selectDirectRes cur rest needed = cur ∨
    (selectDirectRes cur rest needed ∈ rest ∧
     selectDirectRes cur rest needed ≤ needed * (3/2) ∧
     cur < selectDirectRes cur rest needed) := by
  induction rest with
  | nil => intro cur; exact Or.inl rfl
  | cons a tl ih =>
    intro cur
    by_cases hc : a ≤ needed * (3/2) ∧ cur < a
    · have hstep : selectDirectRes cur (a :: tl) needed = selectDirectRes a tl needed := by
        simp [selectDirectRes, hc]
      rcases ih a with h | ⟨hmem, hle, hlt⟩
      · rw [hstep, h]
        exact Or.inr ⟨List.mem_cons_self a tl, hc.1, hc.2⟩
      · rw [hstep]
        exact Or.inr ⟨List.mem_cons_of_mem a hmem, hle, lt_trans hc.2 hlt⟩
    · have hstep : selectDirectRes cur (a :: tl) needed = selectDirectRes cur tl needed := by
        simp [selectDirectRes, hc]
      rcases ih cur with h | ⟨hmem, hle, hlt⟩
      · rw [hstep]; exact Or.inl h
      · rw [hstep]; exact Or.inr ⟨List.mem_cons_of_mem a hmem, hle, hlt⟩

lemma ovrFold_spec (mainW : ℤ) (fW : ℚ) (ovrs : List (Option (ℤ × ℤ))) :
    ∀ b0 : ℤ × ℤ,
    ovrs.foldl (ovrStep mainW fW) b0 = b0 ∨
    (some (ovrs.foldl (ovrStep mainW fW) b0) ∈ ovrs ∧
     (TILE_SIZE : ℚ) ≤ |fW| * (((ovrs.foldl (ovrStep mainW fW) b0).1 : ℚ) / (mainW : ℚ))) := by
  induction ovrs with
  | nil => intro b0; exact Or.inl rfl
  | cons a tl ih =>
    intro b0
    match a with
    | none =>
      have hstep : (none :: tl).foldl (ovrStep mainW fW) b0 = tl.foldl (ovrStep mainW fW) b0 := by
        simp [ovrStep]
      rcases ih b0 with h | ⟨hmem, hle⟩
      · rw [hstep]; exact Or.inl h
      · rw [hstep]; exact Or.inr ⟨List.mem_cons_of_mem none hmem, hle⟩
    | some (ow, oh) =>
      by_cases hc : (TILE_SIZE : ℚ) ≤ |fW| * ((ow : ℚ) / (mainW : ℚ))
      · have hstep : (some (ow, oh) :: tl).foldl (ovrStep mainW fW) b0 =
            tl.foldl (ovrStep mainW fW) (ow, oh) := by
          simp [ovrStep, hc]
        rcases ih (ow, oh) with h | ⟨hmem, hle⟩
        · rw [hstep, h]
          exact Or.inr ⟨List.mem_cons_self _ tl, hc⟩
        · rw [hstep]; exact Or.inr ⟨List.mem_cons_of_mem _ hmem, hle⟩
      · have hstep : (some (ow, oh) :: tl).foldl (ovrStep mainW fW) b0 =
            tl.foldl (ovrStep mainW fW) b0 := by
          simp [ovrStep, hc]
        rcases ih b0 with h | ⟨hmem, hle⟩
        · rw [hstep]; exact Or.inl h
        · rw [hstep]; exact Or.inr ⟨List.mem_cons_of_mem _ hmem, hle⟩

/-- C5 (amended): the direct-resolution selector (tile.js) replaces the
candidate only when the level resolution is within target×1.5 and coarser
than the current candidate, so a selected non-level-0 candidate implies a
tile pixel window of at least 256/1.5 ≈ 170.7 output pixels (not 256); the
pixel-dimension-ratio selector (route.ts) skips unreadable levels — falling
back to level 0 when none is usable — and any selected overview implies a
tile pixel window of at least 256 pixels. -/
theorem c5_selector :
    (∀ res0 needed : ℚ, ∀ rest : List ℚ, 0 < res0 → 0 < needed →
      (selectDirectRes res0 rest needed = res0 ∨
        (selectDirectRes res0 rest needed ∈ rest ∧
         selectDirectRes res0 rest needed ≤ needed * (3/2) ∧
         res0 < selectDirectRes res0 rest needed)) ∧
      (selectDirectRes res0 rest needed ≠ res0 →
        (512 : ℚ) / 3 ≤ ((TILE_SIZE : ℤ) : ℚ) * needed / selectDirectRes res0 rest needed)) ∧
    (∀ mainW mainH : ℤ, ∀ fW : ℚ, ∀ ovrs : List (Option (ℤ × ℤ)),
      (selectOverview mainW mainH ovrs fW = (mainW, mainH) ∨
        (some (selectOverview mainW mainH ovrs fW) ∈ ovrs ∧
         ((TILE_SIZE : ℤ) : ℚ) ≤
           |fW| * (((selectOverview mainW mainH ovrs fW).1 : ℚ) / (mainW : ℚ)))) ∧
      ((∀ o ∈ ovrs, o = none) → selectOverview mainW mainH ovrs fW = (mainW, mainH))) := by
  constructor
  · intro res0 needed rest h0 hn
    have hspec := selectDirectRes_spec needed rest res0
    refine ⟨hspec, ?_⟩
    intro hne
    rcases hspec with h | ⟨hmem, hle, hlt⟩
    · exact absurd h hne
    · have hrpos : 0 < selectDirectRes res0 rest needed := lt_trans h0 hlt
      have hd : ((TILE_SIZE : ℤ) : ℚ) * needed / (needed * (3/2)) ≤
          ((TILE_SIZE : ℤ) : ℚ) * needed / selectDirectRes res0 rest needed := by
        apply div_le_div_of_nonneg_left _ hrpos hle
        have : (0 : ℚ) < ((TILE_SIZE : ℤ) : ℚ) := by norm_num [TILE_SIZE]
        positivity
      have heq : ((TILE_SIZE : ℤ) : ℚ) * needed / (needed * (3/2)) = 512 / 3 := by
        rw [show ((TILE_SIZE : ℤ) : ℚ) = 256 by norm_num [TILE_SIZE]]
        field_simp
        ring
      linarith
  · intro mainW mainH fW ovrs
    constructor
    · exact ovrFold_spec mainW fW ovrs (mainW, mainH)
    · intro hall
      induction ovrs with
      | nil => rfl
      | cons a tl ih =>
        have ha : a = none := hall a (List.mem_cons_self a tl)
        subst ha
        have : selectOverview mainW mainH (none :: tl) fW =
            selectOverview mainW mainH tl fW := by
          simp [selectOverview, ovrStep]
        rw [this]
        exact ih fun o ho => hall o (List.mem_cons_of_mem none ho)

/-- C5 witness: the amended selector properties at a concrete source. -/
theorem c5_selector_witness :
    ((selectDirectRes 1 [2] 1 = 1 ∨
      (selectDirectRes 1 [2] 1 ∈ [2] ∧ selectDirectRes 1 [2] 1 ≤ 1 * (3/2) ∧
       (1 : ℚ) < selectDirectRes 1 [2] 1)) ∧
     (selectDirectRes 1 [2] 1 ≠ 1 →
      (512 : ℚ) / 3 ≤ ((TILE_SIZE : ℤ) : ℚ) * 1 / selectDirectRes 1 [2] 1)) ∧
    ((∀ o ∈ ([none] : List (Option (ℤ × ℤ))), o = none) →
      selectOverview 4 4 [none] 1 = (4, 4)) :=
  ⟨c5_selector.1 1 1 [2] (by norm_num) (by norm_num),
   (c5_selector.2 4 4 1 [none]).2⟩

/-- C5 counterexample: under the direct-resolution strategy a selected
level at 1.4× the target resolution yields an implied tile pixel window of
1280/7 < 256 pixels; and under the ratio strategy an over-zoomed tile
falls back to level 0 with an implied window of 1 < 256 pixels. -/
theorem c5_counterexample :
    selectDirectRes 1 [7/5] 1 = 7/5 ∧
    ((TILE_SIZE : ℤ) : ℚ) * 1 / (7/5) < ((TILE_SIZE : ℤ) : ℚ) ∧
    selectOverview 1 1 [] 1 = (1, 1) ∧
    |(1 : ℚ)| * (((1 : ℤ) : ℚ) / ((1 : ℤ) : ℚ)) < ((TILE_SIZE : ℤ) : ℚ) := by
  refine ⟨?_, by norm_num [TILE_SIZE], rfl, by norm_num [TILE_SIZE]⟩
  norm_num [selectDirectRes]

/-! ## PMTiles byte-range proxy (src/lib/pmtiles-serve.ts) -/

/-- Decimal value of a digit string (`parseInt(..., 10)` on the digits
captured by the range regex). -/
def decimalValue (cs : List Char) : ℤ :=
  cs.foldl (fun a c => a * 10 + ((c.toNat : ℤ) - 48)) 0

/-- `parseRange` from pmtiles-serve.ts lines 50-60, on the header's
characters: the regex `bytes=(\d+)-(\d*)$ ` anchored at both ends; an
omitted end means `fileSize - 1`; a parsed range with
`start >= fileSize || end >= fileSize || start > end` is rejected. -/
def parseRangeChars (cs : List Char) (size : ℤ) : Option (ℤ × ℤ) :=
  if cs.take 6 = "bytes=".data then
    let rest := cs.drop 6
    let d1 := rest.takeWhile Char.isDigit
    let rest2 := rest.dropWhile Char.isDigit
    if d1 ≠ [] ∧ rest2.head? = some '-' ∧ rest2.tail.all Char.isDigit then
      let start := decimalValue d1
      let e := if rest2.tail = [] then size - 1 else decimalValue rest2.tail
      if start ≥ size ∨ e ≥ size ∨ start > e then none else some (start, e)
    else none
  else none

/-- `parseRange(header, fileSize)`: a missing header parses to `null`. -/
def parseRange (header : Option String) (size : ℤ) : Option (ℤ × ℤ) :=
  match header with
  | none => none
  | some s => parseRangeChars s.data size

/-- The observable response of `servePmtilesRange`: status, the
Content-Length and Content-Range headers, the ETag, the byte range passed
to the storage read (`createReadStream({start, end})`, end exclusive per
the code's GCS comment), and whether a body is streamed. -/
structure RangeResp where
  status : ℤ
  contentLength : ℤ
  contentRange : Option String
  etag : String
  readReq : Option (ℤ × ℤ)
  hasBody : Bool
deriving DecidableEq, Repr

/-- `servePmtilesRange` from pmtiles-serve.ts lines 64-112, for a cached
object of the given size and etag: no (or invalid) range yields the
metadata-only 200 response with Content-Length = size and no body; a valid
range yields 206 with `Content-Range: bytes start-end/size`,
Content-Length = end - start + 1, and a storage read of
`[start, end + 1)`. -/
def servePmtilesRange (size : ℤ) (etag : String) (header : Option String) :
    RangeResp :=
  match parseRange header size with
  | none =>
    { status := 200, contentLength := size, contentRange := none,
      etag := etag, readReq := none, hasBody := false }
  | some (s, e) =>
    { status := 206, contentLength := e - s + 1,
      contentRange :=
        some ("bytes " ++ toString s ++ "-" ++ toString e ++ "/" ++ toString size),
      etag := etag, readReq := some (s, e + 1), hasBody := true }

/-- Bytes returned by the storage capability for a read of
`[req.1, req.2)` (exclusive end, clipped to the object size). -/
def readByteCount (size : ℤ) (req : ℤ × ℤ) : ℤ := min req.2 size - req.1

lemma parseRange_sound (header : Option String) (size s e : ℤ)
    (hp : parseRange header size = some (s, e)) :
    s ≤ e ∧ e < size ∧ s < size := by
  match header with
  | none => simp [parseRange] at hp
  | some str =>
    simp only [parseRange, parseRangeChars] at hp
    repeat' split at hp
    any_goals exact Option.noConfusion hp
    all_goals
      simp only [Option.some.injEq, Prod.mk.injEq] at hp
      obtain ⟨h4, h5⟩ := hp
      subst h4
      subst h5
      omega

/-- C1: for a cached object of size S, a request whose Range header parses
to a valid range (s, e) gets a 206 response with
`Content-Range: bytes s-e/S`, Content-Length = e - s + 1, and a bounded
storage read returning exactly e - s + 1 bytes; in particular `bytes=0-`
parses to (0, S-1) and yields exactly S bytes. -/
theorem c1_partial_read (size : ℤ) (etag : String) (header : Option String)
    (s e : ℤ) (hp : parseRange header size = some (s, e)) :
    (servePmtilesRange size etag header).status = 206 ∧
    (servePmtilesRange size etag header).contentLength = e - s + 1 ∧
    (servePmtilesRange size etag header).contentRange =
      some ("bytes " ++ toString s ++ "-" ++ toString e ++ "/" ++ toString size) ∧
    (servePmtilesRange size etag header).readReq = some (s, e + 1) ∧
    readByteCount size (s, e + 1) = e - s + 1 ∧
    (header = some "bytes=0-" → s = 0 ∧ e = size - 1 ∧
      (servePmtilesRange size etag header).contentLength = size) := by
  obtain ⟨hse, hes, hss⟩ := parseRange_sound header size s e hp
  have hserve : servePmtilesRange size etag header =
      { status := 206, contentLength := e - s + 1,
        contentRange :=
          some ("bytes " ++ toString s ++ "-" ++ toString e ++ "/" ++ toString size),
        etag := etag, readReq := some (s, e + 1), hasBody := true } := by
    unfold servePmtilesRange
    rw [hp]
  refine ⟨by rw [hserve], by rw [hserve], by rw [hserve], by rw [hserve], ?_, ?_⟩
  · unfold readByteCount
    have : min (e + 1) size = e + 1 := min_eq_left (by omega)
    rw [this]
    ring
  · rintro rfl
    have hred : parseRange (some "bytes=0-") size =
        if (0 : ℤ) ≥ size ∨ size - 1 ≥ size ∨ (0 : ℤ) > size - 1 then none
        else some (0, size - 1) := rfl
    rcases le_or_lt 1 size with hsz | hsz
    · rw [hred, if_neg (by omega)] at hp
      obtain ⟨h4, h5⟩ : (0 : ℤ) = s ∧ size - 1 = e := by simpa using hp
      subst h4
      subst h5
      refine ⟨rfl, rfl, ?_⟩
      rw [hserve]
      show size - 1 - 0 + 1 = size
      omega
    · rw [hred, if_pos (by omega)] at hp
      exact absurd hp (by simp)

/-- C1 witness: the spec's concrete scenario, `bytes=100-199` on a
1000-byte object. -/
theorem c1_partial_read_witness :
    (servePmtilesRange 1000 "etag1" (some "bytes=100-199")).status = 206 ∧
    (servePmtilesRange 1000 "etag1" (some "bytes=100-199")).contentLength =
      199 - 100 + 1 ∧
    (servePmtilesRange 1000 "etag1" (some "bytes=100-199")).contentRange =
      some ("bytes " ++ toString (100 : ℤ) ++ "-" ++ toString (199 : ℤ) ++ "/" ++
        toString (1000 : ℤ)) ∧
    (servePmtilesRange 1000 "etag1" (some "bytes=100-199")).readReq =
      some (100, 199 + 1) ∧
    readByteCount 1000 (100, 199 + 1) = 199 - 100 + 1 ∧
    (some "bytes=100-199" = some "bytes=0-" → (100 : ℤ) = 0 ∧ (199 : ℤ) = 1000 - 1 ∧
      (servePmtilesRange 1000 "etag1" (some "bytes=100-199")).contentLength = 1000) :=
  c1_partial_read 1000 "etag1" (some "bytes=100-199") 100 199 (by decide)

lemma takeWhile_digits_append (d1 tl : List Char) (h : d1.all Char.isDigit = true) :
    (d1 ++ '-' :: tl).takeWhile Char.isDigit = d1 ∧
    (d1 ++ '-' :: tl).dropWhile Char.isDigit = '-' :: tl := by
  induction d1 with
  | nil =>
    constructor
    · simp [List.takeWhile_cons]
    · simp [List.dropWhile_cons]
  | cons c cs ih =>
    simp only [List.all_cons, Bool.and_eq_true] at h
    obtain ⟨hc, hcs⟩ := h
    obtain ⟨iht, ihd⟩ := ih hcs
    constructor
    · simp [List.takeWhile_cons, hc, iht]
    · simp [List.dropWhile_cons, hc, ihd]

/-- C6: a `bytes=<digits>-` header with the end omitted parses with
end = size - 1 (subject to the same validity gate); any parsed range
satisfies start ≤ end < size and start < size (invalid combinations are
treated as "no range"); when no valid range is present the handler falls
back to the metadata-only 200 response carrying the object size and etag
with no body and no storage read; and for every header and size the
handler totalizes to a 200 or 206 response — it never fails. -/
theorem c6_range_validation :
    (∀ (d1 : List Char) (size : ℤ), d1 ≠ [] → d1.all Char.isDigit = true →
      parseRangeChars ("bytes=".data ++ (d1 ++ ['-'])) size =
        if decimalValue d1 ≥ size ∨ size - 1 ≥ size ∨ decimalValue d1 > size - 1
        then none else some (decimalValue d1, size - 1)) ∧
    (∀ (header : Option String) (size s e : ℤ),
      parseRange header size = some (s, e) → s ≤ e ∧ e < size ∧ s < size) ∧
    (∀ (header : Option String) (size : ℤ) (etag : String),
      parseRange header size = none →
      servePmtilesRange size etag header =
        ⟨200, size, none, etag, none, false⟩) ∧
    (∀ (header : Option String) (size : ℤ) (etag : String),
      (servePmtilesRange size etag header).status = 200 ∨
      (servePmtilesRange size etag header).status = 206) := by
  refine ⟨?_, parseRange_sound, ?_, ?_⟩
  · intro d1 size hne hdig
    obtain ⟨htake, hdrop⟩ := takeWhile_digits_append d1 [] hdig
    have h6 : ("bytes=".data ++ (d1 ++ ['-'])).take 6 = "bytes=".data :=
      List.take_left' rfl
    have hd6 : ("bytes=".data ++ (d1 ++ ['-'])).drop 6 = d1 ++ ['-'] :=
      List.drop_left' rfl
    simp only [parseRangeChars, h6, hd6, htake, hdrop]
    simp [hne]
  · intro header size etag hp
    unfold servePmtilesRange
    rw [hp]
  · intro header size etag
    unfold servePmtilesRange
    rcases parseRange header size with _ | ⟨s, e⟩
    · exact Or.inl rfl
    · exact Or.inr rfl

/-- C6 witness: omitted-end parsing and the no-range fallback at concrete
inputs. -/
theorem c6_range_validation_witness :
    parseRangeChars ("bytes=".data ++ (['1', '0'] ++ ['-'])) 100 =
      (if decimalValue ['1', '0'] ≥ 100 ∨ (100 : ℤ) - 1 ≥ 100 ∨
          decimalValue ['1', '0'] > 100 - 1
       then none else some (decimalValue ['1', '0'], 100 - 1)) ∧
    servePmtilesRange 50 "tag" none = ⟨200, 50, none, "tag", none, false⟩ :=
  ⟨c6_range_validation.1 ['1', '0'] 100 (by decide) (by decide),
   c6_range_validation.2.2.1 none 50 "tag" rfl⟩

/-! ## Signed-URL cache (route.ts lines 41-65) -/

/-- The module-level mutable state: `urlCache` (one URL per year) and the
single shared `urlCacheTime` timestamp.  The cache is a record keyed by
year; assignment shadows the previous entry. -/
structure UrlCacheState where
  cache : List (String × String)
  cacheTime : ℤ
deriving DecidableEq, Repr

/-- Model of the external `getSignedUrl` capability: the issued URL is
determined by the object (year) and its expiry, `now + 3_600_000` (the
code signs with `expires: now + 3_600_000`), so URLs issued at different
times differ. -/
def mkUrl (year : String) (now : ℤ) : String :=
  "signed:" ++ year ++ ":expires:" ++ toString (now + 3600000)

/-- `getCogSignedUrl` from route.ts lines 44-65: return the cached URL if
one exists for the year and `now - urlCacheTime < 3_000_000` (50 of the
60 signed minutes); otherwise issue a new URL, store it, and set the
shared `urlCacheTime` to `now`. -/
def getCogSignedUrl (year : String) (now : ℤ) (st : UrlCacheState) :
    String × UrlCacheState :=
  match st.cache.lookup year with
  | some u =>
    if now - st.cacheTime < 3000000 then (u, st)
    else (mkUrl year now, ⟨(year, mkUrl year now) :: st.cache, now⟩)
  | none => (mkUrl year now, ⟨(year, mkUrl year now) :: st.cache, now⟩)

/-- C8 (amended): a lookup returns the cached URL unchanged whenever the
key is cached and `now - urlCacheTime < 3_000_000`, where `urlCacheTime`
is the single timestamp shared by all keys (the time of the most recent
issuance for any key); two such lookups return byte-identical URLs.  A
lookup reissues — returning a fresh URL and stamping the shared
timestamp — exactly when the key is absent or the shared timestamp is at
least 3_000_000 ms old.  A per-key age at or past the threshold does not
by itself force a reissue. -/
theorem c8_url_cache :
    (∀ (st : UrlCacheState) (year u : String) (now : ℤ),
      st.cache.lookup year = some u → now - st.cacheTime < 3000000 →
      getCogSignedUrl year now st = (u, st)) ∧
    (∀ (st : UrlCacheState) (year u : String) (now now2 : ℤ),
      st.cache.lookup year = some u → now - st.cacheTime < 3000000 →
      now2 - st.cacheTime < 3000000 →
      (getCogSignedUrl year now2 (getCogSignedUrl year now st).2).1 =
        (getCogSignedUrl year now st).1) ∧
    (∀ (st : UrlCacheState) (year : String) (now : ℤ),
      3000000 ≤ now - st.cacheTime →
      (getCogSignedUrl year now st).1 = mkUrl year now ∧
      (getCogSignedUrl year now st).2.cacheTime = now ∧
      (getCogSignedUrl year now st).2.cache.lookup year = some (mkUrl year now)) ∧
    (∀ (st : UrlCacheState) (year : String) (now : ℤ),
      st.cache.lookup year = none →
      (getCogSignedUrl year now st).1 = mkUrl year now ∧
      (getCogSignedUrl year now st).2.cacheTime = now) := by
  have hhit : ∀ (st : UrlCacheState) (year u : String) (now : ℤ),
      st.cache.lookup year = some u → now - st.cacheTime < 3000000 →
      getCogSignedUrl year now st = (u, st) := by
    intro st year u now hl ht
    unfold getCogSignedUrl
    rw [hl]
    exact if_pos ht
  refine ⟨hhit, ?_, ?_, ?_⟩
  · intro st year u now now2 hl ht ht2
    rw [hhit st year u now hl ht]
    rw [hhit st year u now2 hl ht2]
  · intro st year now ht
    match hl : st.cache.lookup year with
    | some u =>
      simp only [getCogSignedUrl, hl]
      rw [if_neg (by omega)]
      simp [List.lookup]
    | none =>
      simp only [getCogSignedUrl, hl]
      simp [List.lookup]
  · intro st year now hl
    simp only [getCogSignedUrl, hl]
    simp

/-- C8 witness: a cache hit one millisecond after issuance returns the
cached URL without touching the state. -/
theorem c8_url_cache_witness :
    getCogSignedUrl "2017" 1 ⟨[("2017", "u")], 0⟩ = ("u", ⟨[("2017", "u")], 0⟩) :=
  c8_url_cache.1 ⟨[("2017", "u")], 0⟩ "2017" "u" 1 (by simp [List.lookup])
    (by norm_num)

/-- C8 counterexample: issuing for key "2017" at t=0, then for key "2024"
at t=2_000_000, resets the shared timestamp; a lookup of "2017" at
t=4_000_000 — 4_000_000 ms past that entry's issuance, beyond the
3_000_000 ms renewal threshold — still returns the original URL with no
reissue, while the claim requires a fresh URL. -/
theorem c8_counterexample :
    (getCogSignedUrl "2017" 4000000
        (getCogSignedUrl "2024" 2000000
          (getCogSignedUrl "2017" 0 ⟨[], 0⟩).2).2).1 =
      (getCogSignedUrl "2017" 0 ⟨[], 0⟩).1 ∧
    (getCogSignedUrl "2017" 0 ⟨[], 0⟩).1 = mkUrl "2017" 0 ∧
    (getCogSignedUrl "2017" 4000000
        (getCogSignedUrl "2024" 2000000
          (getCogSignedUrl "2017" 0 ⟨[], 0⟩).2).2).2 =
      (getCogSignedUrl "2024" 2000000 (getCogSignedUrl "2017" 0 ⟨[], 0⟩).2).2 ∧
    mkUrl "2017" 0 ≠ mkUrl "2017" 4000000 ∧
    (3000000 : ℤ) ≤ 4000000 - 0 := by
  refine ⟨?_, ?_, ?_, by decide, by norm_num⟩ <;>
    simp [getCogSignedUrl, List.lookup, mkUrl]

end Qro
